import Mathlib

/-!
Shallow embedding of backend/onyx/file_processing/unstructured.py.

The module is a configuration-driven client wrapper around an external
document-partitioning service.  Environment variables are modelled as an
association list from variable names to string values (a variable bound to
the empty string is distinct from an unset variable, matching os.environ).
Python string operations (strip, lower, split, int) are modelled explicitly
over the character lists of the relevant ASCII inputs.  The external
key-value store and the service response are modelled from the spec, since
their code lives outside this repository.
-/

deriving instance DecidableEq for Except

/-! ## Python string primitives (ASCII semantics) -/

/-- Whitespace characters recognised by Python's str.strip with no argument. -/
def pySpace (c : Char) : Bool :=
  c == ' ' || c == '\t' || c == '\n' || c == '\r' || c == '\x0b' || c == '\x0c'

/-- ASCII case folding of a single character, as Python's str.lower does on ASCII. -/
def pyLowerChar (c : Char) : Char :=
  if 'A' ≤ c && c ≤ 'Z' then Char.ofNat (c.toNat + 32) else c

/-- Model of Python's str.lower on ASCII strings. -/
def pyLower (s : String) : String :=
  String.mk (s.data.map pyLowerChar)

/-- Strip leading and trailing whitespace from a character list. -/
def pyStripList (l : List Char) : List Char :=
  (((l.dropWhile pySpace).reverse.dropWhile pySpace)).reverse

/-- Model of Python's str.strip with no argument. -/
def pyStrip (s : String) : String :=
  String.mk (pyStripList s.data)

/-- Splitting a character list at commas, as Python's str.split with a comma
separator: the empty string splits to one empty field. -/
def pySplitCommaAux : List Char → List Char → List String
  | [], acc => [String.mk acc.reverse]
  | c :: rest, acc =>
      if c = ',' then String.mk acc.reverse :: pySplitCommaAux rest []
      else pySplitCommaAux rest (c :: acc)

/-- Model of Python's str.split with separator comma. -/
def pySplitComma (s : String) : List String :=
  pySplitCommaAux s.data []

/-- Numeric value of a digit run, underscores skipped. -/
def pyDigitsVal (l : List Char) : Nat :=
  (l.filter (fun c => c != '_')).foldl (fun a c => a * 10 + (c.toNat - 48)) 0

/-- Checks the tail of an integer literal after its first digit: digits with
single underscores allowed between digits, as Python's int accepts. -/
def pyIntTail : List Char → Bool
  | [] => true
  | '_' :: [] => false
  | '_' :: c :: rest => c.isDigit && pyIntTail rest
  | c :: rest => c.isDigit && pyIntTail rest

/-- Model of Python's int constructor on a string: strips whitespace, accepts
an optional sign followed by a digit run (underscores between digits), and
fails (raises ValueError in Python) on anything else. -/
def pyInt (s : String) : Option Int :=
  let t := (pyStrip s).data
  let signed : Int × List Char :=
    match t with
    | '+' :: rest => (1, rest)
    | '-' :: rest => (-1, rest)
    | _ => (1, t)
  match signed.2 with
  | [] => none
  | c :: rest =>
      if c.isDigit && pyIntTail rest then some (signed.1 * (pyDigitsVal (c :: rest) : Int))
      else none

/-! ## Environment model -/

/-- Process environment: association list from variable names to values.
An absent binding models an unset variable (os.environ.get returns None). -/
def Env : Type := List (String × String)

/-- Model of os.environ.get with no default. -/
def Env.get (env : Env) (var : String) : Option String :=
  List.lookup var env

/-! ## Module constants (from the source) -/

def UNSTRUCTURED_SERVER_URL_ENV : String := "UNSTRUCTURED_API_URL"

def UNSTRUCTURED_STRATEGY_ENV : String := "UNSTRUCTURED_STRATEGY"

def UNSTRUCTURED_HI_RES_MODEL_ENV : String := "UNSTRUCTURED_HI_RES_MODEL_NAME"

def VALID_UNSTRUCTURED_STRATEGIES : List String := ["fast", "hi_res", "auto", "ocr_only"]

/-! ## Helper functions of the module -/

/-- Membership test used by the source for boolean values:
value.strip().lower() in the set of "1", "true", "yes". -/
def pyTruthyLiteral (v : String) : Bool :=
  pyLower (pyStrip v) == "1" || pyLower (pyStrip v) == "true" || pyLower (pyStrip v) == "yes"

/-- Embedding of _get_bool_env: default when unset, otherwise the
strip-lower membership test. -/
def _get_bool_env (env : Env) (var_name : String) (default : Bool) : Bool :=
  match env.get var_name with
  | none => default
  | some value => pyTruthyLiteral value

/-- Comma-split, per-item strip, empty items dropped — the body of
_get_list_env and of the inline languages parse. -/
def splitTrimDrop (raw : String) : List String :=
  ((pySplitComma raw).map pyStrip).filter (fun item => !item.isEmpty)

/-- Embedding of _get_list_env: None when the variable is unset or empty
(falsy), otherwise the split-strip-filter list (which may be empty). -/
def _get_list_env (env : Env) (var_name : String) : Option (List String) :=
  match env.get var_name with
  | none => none
  | some raw_value => if raw_value = "" then none else some (splitTrimDrop raw_value)

/-! ## Partition parameter resolution -/

/-- Values held in the partition parameter mapping. -/
inductive PValue
  | str : String → PValue
  | bool : Bool → PValue
  | int : Int → PValue
  | list : List String → PValue
deriving DecidableEq, Repr

/-- Warnings emitted by _get_partition_params via logger.warning, each
constructor one call site with its formatted argument. -/
inductive LogWarning
  | invalidStrategy (given : String)
  | hiResModelIgnored (strategy : String)
deriving DecidableEq, Repr

/-- Result of _get_partition_params on success: the parameter mapping in
insertion order, plus the warnings logged along the way. -/
structure PartitionResult where
  params : List (String × PValue)
  warnings : List LogWarning
deriving DecidableEq, Repr

/-- Strategy value after the source's normalisation:
os.environ.get(..., "").strip().lower(). -/
def normalizedStrategy (env : Env) : String :=
  pyLower (pyStrip ((env.get UNSTRUCTURED_STRATEGY_ENV).getD ""))

/-- Resolved strategy: "fast" when the normalised value is empty or not a
valid strategy, the normalised value otherwise (lines 70-77 of the source). -/
def resolvedStrategy (env : Env) : String :=
  let strategy := normalizedStrategy env
  if strategy = "" then "fast"
  else if VALID_UNSTRUCTURED_STRATEGIES.contains strategy then strategy
  else "fast"

/-- Warning emitted by the strategy fallback branch. -/
def strategyWarnings (env : Env) : List LogWarning :=
  let strategy := normalizedStrategy env
  if strategy = "" then []
  else if VALID_UNSTRUCTURED_STRATEGIES.contains strategy then []
  else [LogWarning.invalidStrategy strategy]

/-- Optional coordinates entry: the source only inserts the key when the
parsed boolean (default true) is true. -/
def coordinatesSeg (env : Env) : List (String × PValue) :=
  if _get_bool_env env "UNSTRUCTURED_COORDINATES" true then
    [("coordinates", PValue.bool true)]
  else []

/-- Optional languages entry: the walrus test is on the raw string, so a
non-empty raw value binds the key even when the parsed list is empty. -/
def languagesSeg (env : Env) : List (String × PValue) :=
  match env.get "UNSTRUCTURED_LANGUAGES" with
  | none => []
  | some raw => if raw = "" then [] else [("languages", PValue.list (splitTrimDrop raw))]

/-- Optional integer entry: skipped when unset or empty (falsy), otherwise
int(value), whose failure propagates as an error. -/
def intOpt (env : Env) (var_name key : String) : Except String (List (String × PValue)) :=
  match env.get var_name with
  | none => Except.ok []
  | some v =>
      if v = "" then Except.ok []
      else
        match pyInt v with
        | some n => Except.ok [(key, PValue.int n)]
        | none => Except.error ("invalid literal for int with base 10: " ++ v)

/-- Optional include_slide_notes entry: present whenever the variable is set
(even to the empty string), with the strip-lower membership test. -/
def slideNotesSeg (env : Env) : List (String × PValue) :=
  match env.get "UNSTRUCTURED_INCLUDE_SLIDE_NOTES" with
  | none => []
  | some v => [("include_slide_notes", PValue.bool (pyTruthyLiteral v))]

/-- Optional skip_infer_table_types entry: the walrus test is on the parsed
list, so an empty list is dropped. -/
def skipTypesSeg (env : Env) : List (String × PValue) :=
  match _get_list_env env "UNSTRUCTURED_SKIP_INFER_TABLE_TYPES" with
  | none => []
  | some l => if l.isEmpty then [] else [("skip_infer_table_types", PValue.list l)]

/-- Optional extract_image_block_types entry, same shape as skipTypesSeg. -/
def extractTypesSeg (env : Env) : List (String × PValue) :=
  match _get_list_env env "UNSTRUCTURED_EXTRACT_IMAGE_BLOCK_TYPES" with
  | none => []
  | some l => if l.isEmpty then [] else [("extract_image_block_types", PValue.list l)]

/-- Optional hi_res_model_name entry: only when the stripped model name is
non-empty and the resolved strategy is hi_res. -/
def hiResSeg (env : Env) (strategy : String) : List (String × PValue) :=
  let hi_res_model := pyStrip ((env.get UNSTRUCTURED_HI_RES_MODEL_ENV).getD "")
  if hi_res_model = "" then []
  else if strategy = "hi_res" then [("hi_res_model_name", PValue.str hi_res_model)]
  else []

/-- Warning emitted when the model name is set but the strategy is not hi_res. -/
def hiResWarnings (env : Env) (strategy : String) : List LogWarning :=
  let hi_res_model := pyStrip ((env.get UNSTRUCTURED_HI_RES_MODEL_ENV).getD "")
  if hi_res_model = "" then []
  else if strategy = "hi_res" then []
  else [LogWarning.hiResModelIgnored strategy]

/-- The parameter mapping assembled in the source's insertion order, given
the outcomes of the four integer options. -/
def buildParams (env : Env) (c m n o : List (String × PValue)) : List (String × PValue) :=
  [("strategy", PValue.str (resolvedStrategy env))]
  ++ coordinatesSeg env
  ++ [("include_page_breaks", PValue.bool (_get_bool_env env "UNSTRUCTURED_INCLUDE_PAGE_BREAKS" false)),
      ("unique_element_ids", PValue.bool (_get_bool_env env "UNSTRUCTURED_UNIQUE_ELEMENT_IDS" true))]
  ++ languagesSeg env
  ++ [("multipage_sections", PValue.bool (_get_bool_env env "UNSTRUCTURED_MULTIPAGE_SECTIONS" true))]
  ++ c ++ m ++ n ++ o
  ++ [("overlap_all", PValue.bool (_get_bool_env env "UNSTRUCTURED_OVERLAP_ALL" false))]
  ++ slideNotesSeg env
  ++ [("pdf_infer_table_structure", PValue.bool (_get_bool_env env "UNSTRUCTURED_PDF_INFER_TABLE_STRUCTURE" true))]
  ++ skipTypesSeg env
  ++ extractTypesSeg env
  ++ hiResSeg env (resolvedStrategy env)

/-- Embedding of _get_partition_params.  The four int() conversions are the
only fallible steps; they abort resolution in source order, exactly as the
uncaught ValueError does in Python.  Everything else is pure and assembled
by buildParams in the source's insertion order. -/
def _get_partition_params (env : Env) : Except String PartitionResult := do
  let c ← intOpt env "UNSTRUCTURED_COMBINE_UNDER_N_CHARS" "combine_under_n_chars"
  let m ← intOpt env "UNSTRUCTURED_MAX_CHARACTERS" "max_characters"
  let n ← intOpt env "UNSTRUCTURED_NEW_AFTER_N_CHARS" "new_after_n_chars"
  let o ← intOpt env "UNSTRUCTURED_OVERLAP" "overlap"
  pure { params := buildParams env c m n o,
         warnings := strategyWarnings env ++ hiResWarnings env (resolvedStrategy env) }

/-! ## Partition invocation -/

/-- Service response as the spec describes it: a status code and an ordered
sequence of elements, each element modelled by its rendered string form. -/
structure PartitionResponse where
  status_code : Nat
  elements : List String
deriving DecidableEq, Repr

/-- Modelled from the spec: dict_to_elements of the third-party staging
library turns the response payload into element objects whose str() form is
the element text; with elements modelled by those strings it is the
identity. -/
def dict_to_elements (elements : List String) : List String := elements

/-- Embedding of unstructured_to_text, with the remote call mocked by the
response it returns.  Parameter resolution runs first (its failure aborts
the call); the elements are converted before the status check, as in the
source; a non-200 status raises ValueError with the status code in the
message; on success the element strings are joined with a blank line. -/
def unstructured_to_text (env : Env) (response : PartitionResponse) :
    Except String String := do
  let _partition_params ← _get_partition_params env
  let elements := dict_to_elements response.elements
  if response.status_code ≠ 200 then
    Except.error ("Received unexpected status code " ++ toString response.status_code
      ++ " from Unstructured API.")
  else
    Except.ok (String.intercalate "\n\n" elements)

/-! ## Credential management over the key-value store -/

/-- Modelled from the spec: the fixed key under which the credential is
stored (KV_UNSTRUCTURED_API_KEY of onyx.configs.constants, not under src). -/
def KV_UNSTRUCTURED_API_KEY : String := "unstructured_api_key"

/-- Modelled from the spec: error raised by the key-value store's load when
the key is absent (KvKeyNotFoundError of onyx.key_value_store.interface). -/
inductive KvKeyNotFoundError
  | notFound
deriving DecidableEq, Repr

/-- Modelled from the spec: the external key-value store state, an
association from keys to values (onyx.key_value_store, not under src). -/
def KVStore : Type := List (String × String)

/-- Modelled from the spec: load raises KvKeyNotFoundError when absent. -/
def KVStore.load (kv : KVStore) (key : String) : Except KvKeyNotFoundError String :=
  match List.lookup key kv with
  | some v => Except.ok v
  | none => Except.error KvKeyNotFoundError.notFound

/-- Modelled from the spec: store overwrites any existing binding. -/
def KVStore.store (kv : KVStore) (key value : String) : KVStore :=
  (key, value) :: List.filter (fun p => p.1 != key) kv

/-- Modelled from the spec: delete removes the binding. -/
def KVStore.delete (kv : KVStore) (key : String) : KVStore :=
  List.filter (fun p => p.1 != key) kv

/-- Embedding of get_unstructured_api_key: load, with absence mapped to none. -/
def get_unstructured_api_key (kv : KVStore) : Option String :=
  match kv.load KV_UNSTRUCTURED_API_KEY with
  | Except.ok v => some v
  | Except.error _ => none

/-- Embedding of update_unstructured_api_key. -/
def update_unstructured_api_key (kv : KVStore) (api_key : String) : KVStore :=
  kv.store KV_UNSTRUCTURED_API_KEY api_key

/-- Embedding of delete_unstructured_api_key. -/
def delete_unstructured_api_key (kv : KVStore) : KVStore :=
  kv.delete KV_UNSTRUCTURED_API_KEY

/-! ## Helper lemmas about association-list lookup -/

theorem lookup_cons_if {β : Type} (k key : String) (v : β) (rest : List (String × β)) :
    List.lookup k ((key, v) :: rest) = if k = key then some v else List.lookup k rest := by
  by_cases h : k = key
  · simp [List.lookup_cons, h]
  · have hb : (k == key) = false := beq_eq_false_iff_ne.mpr h
    simp [List.lookup_cons, hb, h]

theorem lookup_append_or {β : Type} (k : String) (l1 l2 : List (String × β)) :
    List.lookup k (l1 ++ l2) = (List.lookup k l1).or (List.lookup k l2) := by
  induction l1 with
  | nil => simp
  | cons p t ih =>
      cases p with
      | mk a b =>
          rw [List.cons_append, lookup_cons_if, lookup_cons_if]
          by_cases h : k = a <;> simp [h, ih]

theorem lookup_filter_fst_ne {β : Type} (k : String) (l : List (String × β)) :
    List.lookup k (List.filter (fun p => p.1 != k) l) = none := by
  induction l with
  | nil => simp
  | cons p t ih =>
      cases p with
      | mk a b =>
          rw [List.filter_cons]
          by_cases h : a = k
          · simp [h, ih]
          · have hb : (((a, b).1 != k) = true) := by simp [bne_iff_ne, h]
            rw [if_pos hb, lookup_cons_if, if_neg (fun hk => h hk.symm)]
            exact ih

/-! ## Lookup facts for the individual parameter segments -/

theorem coordinatesSeg_lookup_ne (env : Env) (k : String) (hk : k ≠ "coordinates") :
    List.lookup k (coordinatesSeg env) = none := by
  unfold coordinatesSeg
  split <;> simp [lookup_cons_if, hk]

theorem coordinatesSeg_lookup_self (env : Env) :
    List.lookup "coordinates" (coordinatesSeg env) =
      (if _get_bool_env env "UNSTRUCTURED_COORDINATES" true then
        some (PValue.bool true) else none) := by
  unfold coordinatesSeg
  split <;> simp [lookup_cons_if]

theorem languagesSeg_lookup_ne (env : Env) (k : String) (hk : k ≠ "languages") :
    List.lookup k (languagesSeg env) = none := by
  unfold languagesSeg
  cases env.get "UNSTRUCTURED_LANGUAGES" with
  | none => simp
  | some raw => split <;> simp [lookup_cons_if, hk]

theorem languagesSeg_lookup_self (env : Env) :
    List.lookup "languages" (languagesSeg env) =
      (match env.get "UNSTRUCTURED_LANGUAGES" with
        | none => none
        | some raw =>
            if raw = "" then none else some (PValue.list (splitTrimDrop raw))) := by
  unfold languagesSeg
  cases env.get "UNSTRUCTURED_LANGUAGES" with
  | none => simp
  | some raw => by_cases hr : raw = "" <;> simp [hr, lookup_cons_if]

theorem slideNotesSeg_lookup_ne (env : Env) (k : String) (hk : k ≠ "include_slide_notes") :
    List.lookup k (slideNotesSeg env) = none := by
  unfold slideNotesSeg
  cases env.get "UNSTRUCTURED_INCLUDE_SLIDE_NOTES" with
  | none => simp
  | some v => simp [lookup_cons_if, hk]

theorem slideNotesSeg_lookup_self (env : Env) :
    List.lookup "include_slide_notes" (slideNotesSeg env) =
      (env.get "UNSTRUCTURED_INCLUDE_SLIDE_NOTES").map
        (fun v => PValue.bool (pyTruthyLiteral v)) := by
  unfold slideNotesSeg
  cases env.get "UNSTRUCTURED_INCLUDE_SLIDE_NOTES" with
  | none => simp
  | some v => simp [lookup_cons_if]

theorem skipTypesSeg_lookup_ne (env : Env) (k : String) (hk : k ≠ "skip_infer_table_types") :
    List.lookup k (skipTypesSeg env) = none := by
  unfold skipTypesSeg
  cases _get_list_env env "UNSTRUCTURED_SKIP_INFER_TABLE_TYPES" with
  | none => simp
  | some l => split <;> simp [lookup_cons_if, hk]

theorem skipTypesSeg_lookup_self (env : Env) :
    List.lookup "skip_infer_table_types" (skipTypesSeg env) =
      (match _get_list_env env "UNSTRUCTURED_SKIP_INFER_TABLE_TYPES" with
        | none => none
        | some l => if l.isEmpty then none else some (PValue.list l)) := by
  unfold skipTypesSeg
  cases _get_list_env env "UNSTRUCTURED_SKIP_INFER_TABLE_TYPES" with
  | none => simp
  | some l => cases hl : l.isEmpty <;> simp [hl, lookup_cons_if]

theorem extractTypesSeg_lookup_ne (env : Env) (k : String)
    (hk : k ≠ "extract_image_block_types") :
    List.lookup k (extractTypesSeg env) = none := by
  unfold extractTypesSeg
  cases _get_list_env env "UNSTRUCTURED_EXTRACT_IMAGE_BLOCK_TYPES" with
  | none => simp
  | some l => split <;> simp [lookup_cons_if, hk]

theorem extractTypesSeg_lookup_self (env : Env) :
    List.lookup "extract_image_block_types" (extractTypesSeg env) =
      (match _get_list_env env "UNSTRUCTURED_EXTRACT_IMAGE_BLOCK_TYPES" with
        | none => none
        | some l => if l.isEmpty then none else some (PValue.list l)) := by
  unfold extractTypesSeg
  cases _get_list_env env "UNSTRUCTURED_EXTRACT_IMAGE_BLOCK_TYPES" with
  | none => simp
  | some l => cases hl : l.isEmpty <;> simp [hl, lookup_cons_if]

theorem hiResSeg_lookup_ne (env : Env) (strategy k : String)
    (hk : k ≠ "hi_res_model_name") :
    List.lookup k (hiResSeg env strategy) = none := by
  unfold hiResSeg
  by_cases h1 : pyStrip ((env.get UNSTRUCTURED_HI_RES_MODEL_ENV).getD "") = ""
  · simp [h1]
  · by_cases h2 : strategy = "hi_res" <;> simp [h1, h2, lookup_cons_if, hk]

theorem hiResSeg_lookup_self (env : Env) (strategy : String) :
    List.lookup "hi_res_model_name" (hiResSeg env strategy) =
      (if pyStrip ((env.get UNSTRUCTURED_HI_RES_MODEL_ENV).getD "") = "" then none
       else if strategy = "hi_res" then
         some (PValue.str (pyStrip ((env.get UNSTRUCTURED_HI_RES_MODEL_ENV).getD "")))
       else none) := by
  unfold hiResSeg
  by_cases h1 : pyStrip ((env.get UNSTRUCTURED_HI_RES_MODEL_ENV).getD "") = ""
  · simp [h1]
  · by_cases h2 : strategy = "hi_res" <;> simp [h1, h2, lookup_cons_if]

theorem intOpt_ok_lookup_ne (env : Env) (var_name key : String)
    (seg : List (String × PValue)) (h : intOpt env var_name key = Except.ok seg)
    (k : String) (hk : k ≠ key) : List.lookup k seg = none := by
  unfold intOpt at h
  split at h
  · cases h; simp
  · split at h
    · cases h; simp
    · split at h
      · cases h; simp [lookup_cons_if, hk]
      · cases h

/-! ## Destructor for successful parameter resolution -/

theorem partition_params_ok_shape (env : Env) (r : PartitionResult)
    (h : _get_partition_params env = Except.ok r) :
    ∃ c m n o,
      intOpt env "UNSTRUCTURED_COMBINE_UNDER_N_CHARS" "combine_under_n_chars" = Except.ok c ∧
      intOpt env "UNSTRUCTURED_MAX_CHARACTERS" "max_characters" = Except.ok m ∧
      intOpt env "UNSTRUCTURED_NEW_AFTER_N_CHARS" "new_after_n_chars" = Except.ok n ∧
      intOpt env "UNSTRUCTURED_OVERLAP" "overlap" = Except.ok o ∧
      r = { params := buildParams env c m n o,
            warnings := strategyWarnings env ++ hiResWarnings env (resolvedStrategy env) } := by
  unfold _get_partition_params at h
  cases hc : intOpt env "UNSTRUCTURED_COMBINE_UNDER_N_CHARS" "combine_under_n_chars" with
  | error e => rw [hc] at h; simp [Bind.bind, Except.bind] at h
  | ok c =>
  rw [hc] at h
  cases hm : intOpt env "UNSTRUCTURED_MAX_CHARACTERS" "max_characters" with
  | error e => rw [hm] at h; simp [Bind.bind, Except.bind] at h
  | ok m =>
  rw [hm] at h
  cases hn : intOpt env "UNSTRUCTURED_NEW_AFTER_N_CHARS" "new_after_n_chars" with
  | error e => rw [hn] at h; simp [Bind.bind, Except.bind] at h
  | ok n =>
  rw [hn] at h
  cases ho : intOpt env "UNSTRUCTURED_OVERLAP" "overlap" with
  | error e => rw [ho] at h; simp [Bind.bind, Except.bind] at h
  | ok o =>
  rw [ho] at h
  simp only [Bind.bind, Except.bind, pure, Except.pure] at h
  cases h
  exact ⟨c, m, n, o, rfl, rfl, rfl, rfl, rfl⟩

/-! ## Lookup facts for the assembled parameter mapping -/

theorem buildParams_lookup_strategy (env : Env) (c m n o : List (String × PValue)) :
    List.lookup "strategy" (buildParams env c m n o) =
      some (PValue.str (resolvedStrategy env)) := by
  simp [buildParams, lookup_append_or, lookup_cons_if]

theorem buildParams_lookup_include_page_breaks (env : Env)
    (c m n o : List (String × PValue)) :
    List.lookup "include_page_breaks" (buildParams env c m n o) =
      some (PValue.bool (_get_bool_env env "UNSTRUCTURED_INCLUDE_PAGE_BREAKS" false)) := by
  simp [buildParams, lookup_append_or, lookup_cons_if,
    coordinatesSeg_lookup_ne env "include_page_breaks" (by decide)]

theorem buildParams_lookup_unique_element_ids (env : Env)
    (c m n o : List (String × PValue)) :
    List.lookup "unique_element_ids" (buildParams env c m n o) =
      some (PValue.bool (_get_bool_env env "UNSTRUCTURED_UNIQUE_ELEMENT_IDS" true)) := by
  simp [buildParams, lookup_append_or, lookup_cons_if,
    coordinatesSeg_lookup_ne env "unique_element_ids" (by decide)]

theorem buildParams_lookup_multipage_sections (env : Env)
    (c m n o : List (String × PValue)) :
    List.lookup "multipage_sections" (buildParams env c m n o) =
      some (PValue.bool (_get_bool_env env "UNSTRUCTURED_MULTIPAGE_SECTIONS" true)) := by
  simp [buildParams, lookup_append_or, lookup_cons_if,
    coordinatesSeg_lookup_ne env "multipage_sections" (by decide),
    languagesSeg_lookup_ne env "multipage_sections" (by decide)]

theorem buildParams_lookup_coordinates (env : Env) (c m n o : List (String × PValue))
    (hc : intOpt env "UNSTRUCTURED_COMBINE_UNDER_N_CHARS" "combine_under_n_chars" = Except.ok c)
    (hm : intOpt env "UNSTRUCTURED_MAX_CHARACTERS" "max_characters" = Except.ok m)
    (hn : intOpt env "UNSTRUCTURED_NEW_AFTER_N_CHARS" "new_after_n_chars" = Except.ok n)
    (ho : intOpt env "UNSTRUCTURED_OVERLAP" "overlap" = Except.ok o) :
    List.lookup "coordinates" (buildParams env c m n o) =
      (if _get_bool_env env "UNSTRUCTURED_COORDINATES" true then
        some (PValue.bool true) else none) := by
  simp [buildParams, lookup_append_or, lookup_cons_if,
    coordinatesSeg_lookup_self,
    languagesSeg_lookup_ne env "coordinates" (by decide),
    slideNotesSeg_lookup_ne env "coordinates" (by decide),
    skipTypesSeg_lookup_ne env "coordinates" (by decide),
    extractTypesSeg_lookup_ne env "coordinates" (by decide),
    hiResSeg_lookup_ne env (resolvedStrategy env) "coordinates" (by decide),
    intOpt_ok_lookup_ne env _ _ c hc "coordinates" (by decide),
    intOpt_ok_lookup_ne env _ _ m hm "coordinates" (by decide),
    intOpt_ok_lookup_ne env _ _ n hn "coordinates" (by decide),
    intOpt_ok_lookup_ne env _ _ o ho "coordinates" (by decide)]

theorem buildParams_lookup_languages (env : Env) (c m n o : List (String × PValue))
    (hc : intOpt env "UNSTRUCTURED_COMBINE_UNDER_N_CHARS" "combine_under_n_chars" = Except.ok c)
    (hm : intOpt env "UNSTRUCTURED_MAX_CHARACTERS" "max_characters" = Except.ok m)
    (hn : intOpt env "UNSTRUCTURED_NEW_AFTER_N_CHARS" "new_after_n_chars" = Except.ok n)
    (ho : intOpt env "UNSTRUCTURED_OVERLAP" "overlap" = Except.ok o) :
    List.lookup "languages" (buildParams env c m n o) =
      (match env.get "UNSTRUCTURED_LANGUAGES" with
        | none => none
        | some raw =>
            if raw = "" then none else some (PValue.list (splitTrimDrop raw))) := by
  simp [buildParams, lookup_append_or, lookup_cons_if,
    languagesSeg_lookup_self,
    coordinatesSeg_lookup_ne env "languages" (by decide),
    slideNotesSeg_lookup_ne env "languages" (by decide),
    skipTypesSeg_lookup_ne env "languages" (by decide),
    extractTypesSeg_lookup_ne env "languages" (by decide),
    hiResSeg_lookup_ne env (resolvedStrategy env) "languages" (by decide),
    intOpt_ok_lookup_ne env _ _ c hc "languages" (by decide),
    intOpt_ok_lookup_ne env _ _ m hm "languages" (by decide),
    intOpt_ok_lookup_ne env _ _ n hn "languages" (by decide),
    intOpt_ok_lookup_ne env _ _ o ho "languages" (by decide)]

theorem buildParams_lookup_overlap_all (env : Env) (c m n o : List (String × PValue))
    (hc : intOpt env "UNSTRUCTURED_COMBINE_UNDER_N_CHARS" "combine_under_n_chars" = Except.ok c)
    (hm : intOpt env "UNSTRUCTURED_MAX_CHARACTERS" "max_characters" = Except.ok m)
    (hn : intOpt env "UNSTRUCTURED_NEW_AFTER_N_CHARS" "new_after_n_chars" = Except.ok n)
    (ho : intOpt env "UNSTRUCTURED_OVERLAP" "overlap" = Except.ok o) :
    List.lookup "overlap_all" (buildParams env c m n o) =
      some (PValue.bool (_get_bool_env env "UNSTRUCTURED_OVERLAP_ALL" false)) := by
  simp [buildParams, lookup_append_or, lookup_cons_if,
    coordinatesSeg_lookup_ne env "overlap_all" (by decide),
    languagesSeg_lookup_ne env "overlap_all" (by decide),
    intOpt_ok_lookup_ne env _ _ c hc "overlap_all" (by decide),
    intOpt_ok_lookup_ne env _ _ m hm "overlap_all" (by decide),
    intOpt_ok_lookup_ne env _ _ n hn "overlap_all" (by decide),
    intOpt_ok_lookup_ne env _ _ o ho "overlap_all" (by decide)]

theorem buildParams_lookup_include_slide_notes (env : Env) (c m n o : List (String × PValue))
    (hc : intOpt env "UNSTRUCTURED_COMBINE_UNDER_N_CHARS" "combine_under_n_chars" = Except.ok c)
    (hm : intOpt env "UNSTRUCTURED_MAX_CHARACTERS" "max_characters" = Except.ok m)
    (hn : intOpt env "UNSTRUCTURED_NEW_AFTER_N_CHARS" "new_after_n_chars" = Except.ok n)
    (ho : intOpt env "UNSTRUCTURED_OVERLAP" "overlap" = Except.ok o) :
    List.lookup "include_slide_notes" (buildParams env c m n o) =
      (env.get "UNSTRUCTURED_INCLUDE_SLIDE_NOTES").map
        (fun v => PValue.bool (pyTruthyLiteral v)) := by
  simp [buildParams, lookup_append_or, lookup_cons_if,
    slideNotesSeg_lookup_self,
    coordinatesSeg_lookup_ne env "include_slide_notes" (by decide),
    languagesSeg_lookup_ne env "include_slide_notes" (by decide),
    skipTypesSeg_lookup_ne env "include_slide_notes" (by decide),
    extractTypesSeg_lookup_ne env "include_slide_notes" (by decide),
    hiResSeg_lookup_ne env (resolvedStrategy env) "include_slide_notes" (by decide),
    intOpt_ok_lookup_ne env _ _ c hc "include_slide_notes" (by decide),
    intOpt_ok_lookup_ne env _ _ m hm "include_slide_notes" (by decide),
    intOpt_ok_lookup_ne env _ _ n hn "include_slide_notes" (by decide),
    intOpt_ok_lookup_ne env _ _ o ho "include_slide_notes" (by decide)]

theorem buildParams_lookup_pdf_infer (env : Env) (c m n o : List (String × PValue))
    (hc : intOpt env "UNSTRUCTURED_COMBINE_UNDER_N_CHARS" "combine_under_n_chars" = Except.ok c)
    (hm : intOpt env "UNSTRUCTURED_MAX_CHARACTERS" "max_characters" = Except.ok m)
    (hn : intOpt env "UNSTRUCTURED_NEW_AFTER_N_CHARS" "new_after_n_chars" = Except.ok n)
    (ho : intOpt env "UNSTRUCTURED_OVERLAP" "overlap" = Except.ok o) :
    List.lookup "pdf_infer_table_structure" (buildParams env c m n o) =
      some (PValue.bool (_get_bool_env env "UNSTRUCTURED_PDF_INFER_TABLE_STRUCTURE" true)) := by
  simp [buildParams, lookup_append_or, lookup_cons_if,
    coordinatesSeg_lookup_ne env "pdf_infer_table_structure" (by decide),
    languagesSeg_lookup_ne env "pdf_infer_table_structure" (by decide),
    slideNotesSeg_lookup_ne env "pdf_infer_table_structure" (by decide),
    intOpt_ok_lookup_ne env _ _ c hc "pdf_infer_table_structure" (by decide),
    intOpt_ok_lookup_ne env _ _ m hm "pdf_infer_table_structure" (by decide),
    intOpt_ok_lookup_ne env _ _ n hn "pdf_infer_table_structure" (by decide),
    intOpt_ok_lookup_ne env _ _ o ho "pdf_infer_table_structure" (by decide)]

theorem buildParams_lookup_skip_types (env : Env) (c m n o : List (String × PValue))
    (hc : intOpt env "UNSTRUCTURED_COMBINE_UNDER_N_CHARS" "combine_under_n_chars" = Except.ok c)
    (hm : intOpt env "UNSTRUCTURED_MAX_CHARACTERS" "max_characters" = Except.ok m)
    (hn : intOpt env "UNSTRUCTURED_NEW_AFTER_N_CHARS" "new_after_n_chars" = Except.ok n)
    (ho : intOpt env "UNSTRUCTURED_OVERLAP" "overlap" = Except.ok o) :
    List.lookup "skip_infer_table_types" (buildParams env c m n o) =
      (match _get_list_env env "UNSTRUCTURED_SKIP_INFER_TABLE_TYPES" with
        | none => none
        | some l => if l.isEmpty then none else some (PValue.list l)) := by
  simp [buildParams, lookup_append_or, lookup_cons_if,
    skipTypesSeg_lookup_self,
    coordinatesSeg_lookup_ne env "skip_infer_table_types" (by decide),
    languagesSeg_lookup_ne env "skip_infer_table_types" (by decide),
    slideNotesSeg_lookup_ne env "skip_infer_table_types" (by decide),
    extractTypesSeg_lookup_ne env "skip_infer_table_types" (by decide),
    hiResSeg_lookup_ne env (resolvedStrategy env) "skip_infer_table_types" (by decide),
    intOpt_ok_lookup_ne env _ _ c hc "skip_infer_table_types" (by decide),
    intOpt_ok_lookup_ne env _ _ m hm "skip_infer_table_types" (by decide),
    intOpt_ok_lookup_ne env _ _ n hn "skip_infer_table_types" (by decide),
    intOpt_ok_lookup_ne env _ _ o ho "skip_infer_table_types" (by decide)]

theorem buildParams_lookup_extract_types (env : Env) (c m n o : List (String × PValue))
    (hc : intOpt env "UNSTRUCTURED_COMBINE_UNDER_N_CHARS" "combine_under_n_chars" = Except.ok c)
    (hm : intOpt env "UNSTRUCTURED_MAX_CHARACTERS" "max_characters" = Except.ok m)
    (hn : intOpt env "UNSTRUCTURED_NEW_AFTER_N_CHARS" "new_after_n_chars" = Except.ok n)
    (ho : intOpt env "UNSTRUCTURED_OVERLAP" "overlap" = Except.ok o) :
    List.lookup "extract_image_block_types" (buildParams env c m n o) =
      (match _get_list_env env "UNSTRUCTURED_EXTRACT_IMAGE_BLOCK_TYPES" with
        | none => none
        | some l => if l.isEmpty then none else some (PValue.list l)) := by
  simp [buildParams, lookup_append_or, lookup_cons_if,
    extractTypesSeg_lookup_self,
    coordinatesSeg_lookup_ne env "extract_image_block_types" (by decide),
    languagesSeg_lookup_ne env "extract_image_block_types" (by decide),
    slideNotesSeg_lookup_ne env "extract_image_block_types" (by decide),
    skipTypesSeg_lookup_ne env "extract_image_block_types" (by decide),
    hiResSeg_lookup_ne env (resolvedStrategy env) "extract_image_block_types" (by decide),
    intOpt_ok_lookup_ne env _ _ c hc "extract_image_block_types" (by decide),
    intOpt_ok_lookup_ne env _ _ m hm "extract_image_block_types" (by decide),
    intOpt_ok_lookup_ne env _ _ n hn "extract_image_block_types" (by decide),
    intOpt_ok_lookup_ne env _ _ o ho "extract_image_block_types" (by decide)]

theorem buildParams_lookup_hi_res (env : Env) (c m n o : List (String × PValue))
    (hc : intOpt env "UNSTRUCTURED_COMBINE_UNDER_N_CHARS" "combine_under_n_chars" = Except.ok c)
    (hm : intOpt env "UNSTRUCTURED_MAX_CHARACTERS" "max_characters" = Except.ok m)
    (hn : intOpt env "UNSTRUCTURED_NEW_AFTER_N_CHARS" "new_after_n_chars" = Except.ok n)
    (ho : intOpt env "UNSTRUCTURED_OVERLAP" "overlap" = Except.ok o) :
    List.lookup "hi_res_model_name" (buildParams env c m n o) =
      (if pyStrip ((env.get UNSTRUCTURED_HI_RES_MODEL_ENV).getD "") = "" then none
       else if resolvedStrategy env = "hi_res" then
         some (PValue.str (pyStrip ((env.get UNSTRUCTURED_HI_RES_MODEL_ENV).getD "")))
       else none) := by
  simp [buildParams, lookup_append_or, lookup_cons_if,
    hiResSeg_lookup_self,
    coordinatesSeg_lookup_ne env "hi_res_model_name" (by decide),
    languagesSeg_lookup_ne env "hi_res_model_name" (by decide),
    slideNotesSeg_lookup_ne env "hi_res_model_name" (by decide),
    skipTypesSeg_lookup_ne env "hi_res_model_name" (by decide),
    extractTypesSeg_lookup_ne env "hi_res_model_name" (by decide),
    intOpt_ok_lookup_ne env _ _ c hc "hi_res_model_name" (by decide),
    intOpt_ok_lookup_ne env _ _ m hm "hi_res_model_name" (by decide),
    intOpt_ok_lookup_ne env _ _ n hn "hi_res_model_name" (by decide),
    intOpt_ok_lookup_ne env _ _ o ho "hi_res_model_name" (by decide)]

/-! ## Facts about stripping and splitting -/

theorem dropWhile_eq_append (p : Char → Bool) (l : List Char) :
    ∃ t, t ++ l.dropWhile p = l := by
  induction l with
  | nil => exact ⟨[], rfl⟩
  | cons a l ih =>
      by_cases h : p a = true
      · obtain ⟨t, ht⟩ := ih
        exact ⟨a :: t, by rw [List.dropWhile_cons, if_pos h, List.cons_append, ht]⟩
      · exact ⟨[], by rw [List.dropWhile_cons, if_neg h, List.nil_append]⟩

theorem dropWhile_head_false (p : Char → Bool) (l : List Char) :
    l.dropWhile p = [] ∨ ∃ a t, l.dropWhile p = a :: t ∧ p a = false := by
  induction l with
  | nil => left; rfl
  | cons a l ih =>
      by_cases h : p a = true
      · rw [List.dropWhile_cons, if_pos h]; exact ih
      · right
        exact ⟨a, l, by rw [List.dropWhile_cons, if_neg h], by simpa using h⟩

theorem pyStripList_idem (l : List Char) :
    pyStripList (pyStripList l) = pyStripList l := by
  unfold pyStripList
  rcases dropWhile_head_false pySpace l with hA | ⟨a, t, hA, ha⟩
  · rw [hA]; rfl
  · obtain ⟨u, hu⟩ := dropWhile_eq_append pySpace (l.dropWhile pySpace).reverse
    have hsplit : ((l.dropWhile pySpace).reverse.dropWhile pySpace).reverse ++ u.reverse
        = l.dropWhile pySpace := by
      rw [← List.reverse_append, hu, List.reverse_reverse]
    have hfront : List.dropWhile pySpace
        ((l.dropWhile pySpace).reverse.dropWhile pySpace).reverse
        = ((l.dropWhile pySpace).reverse.dropWhile pySpace).reverse := by
      cases hm : ((l.dropWhile pySpace).reverse.dropWhile pySpace).reverse with
      | nil => rfl
      | cons b s =>
          have hb : b = a := by
            rw [hm] at hsplit
            rw [hA] at hsplit
            exact (List.cons.injEq ..).mp hsplit |>.1
          rw [List.dropWhile_cons, hb, ha]
          simp
    rw [hfront, List.reverse_reverse, List.dropWhile_idempotent]

theorem pyStrip_idem (s : String) : pyStrip (pyStrip s) = pyStrip s := by
  unfold pyStrip
  rw [pyStripList_idem]

theorem mem_splitTrimDrop (raw s : String) (h : s ∈ splitTrimDrop raw) :
    s ≠ "" ∧ pyStrip s = s := by
  unfold splitTrimDrop at h
  rw [List.mem_filter] at h
  obtain ⟨hmem, hpred⟩ := h
  rw [List.mem_map] at hmem
  obtain ⟨t, _, ht⟩ := hmem
  constructor
  · intro he
    rw [he] at hpred
    simp [String.isEmpty] at hpred
  · rw [← ht]
    exact pyStrip_idem t

theorem _get_list_env_some (env : Env) (var_name : String) (l : List String)
    (h : _get_list_env env var_name = some l) :
    ∃ raw, env.get var_name = some raw ∧ raw ≠ "" ∧ l = splitTrimDrop raw := by
  unfold _get_list_env at h
  split at h
  · cases h
  · rename_i raw heq
    split at h
    · cases h
    · rename_i hne
      cases h
      exact ⟨raw, heq, hne, rfl⟩

/-! ## Facts about the integer options and warnings -/

/-- Validity of one integer option in an environment: unset, empty, or a
value Python's int accepts. -/
def intEnvOk (env : Env) (var_name : String) : Bool :=
  match env.get var_name with
  | none => true
  | some v => v == "" || (pyInt v).isSome

theorem intOpt_ok_of_intEnvOk (env : Env) (var_name key : String)
    (h : intEnvOk env var_name = true) :
    ∃ seg, intOpt env var_name key = Except.ok seg := by
  unfold intEnvOk at h
  unfold intOpt
  cases he : env.get var_name with
  | none => simp [he]
  | some v =>
      simp only [he] at h
      simp only [he]
      by_cases hv : v = ""
      · simp [hv]
      · rw [if_neg hv]
        cases hp : pyInt v with
        | none =>
            rw [hp] at h
            simp [Option.isSome] at h
            exact absurd h hv
        | some n => simp [hp]

theorem contains_iff_mem_str (s : String) (l : List String) :
    l.contains s = true ↔ s ∈ l :=
  ⟨fun h => by simpa using h, fun h => by simpa using h⟩

theorem invalidStrategy_mem_warnings (env : Env) :
    (LogWarning.invalidStrategy (normalizedStrategy env) ∈
        strategyWarnings env ++ hiResWarnings env (resolvedStrategy env)) ↔
      (normalizedStrategy env ≠ "" ∧
        ¬ normalizedStrategy env ∈ VALID_UNSTRUCTURED_STRATEGIES) := by
  unfold strategyWarnings hiResWarnings
  by_cases h2 : normalizedStrategy env ∈ VALID_UNSTRUCTURED_STRATEGIES
  · have hc : VALID_UNSTRUCTURED_STRATEGIES.contains (normalizedStrategy env) = true :=
      (contains_iff_mem_str _ _).mpr h2
    by_cases h1 : normalizedStrategy env = "" <;>
      by_cases h3 : pyStrip ((env.get UNSTRUCTURED_HI_RES_MODEL_ENV).getD "") = "" <;>
      by_cases h4 : resolvedStrategy env = "hi_res" <;>
      simp [h1, h2, h3, h4, hc]
  · have hc : VALID_UNSTRUCTURED_STRATEGIES.contains (normalizedStrategy env) = false := by
      cases hcc : VALID_UNSTRUCTURED_STRATEGIES.contains (normalizedStrategy env)
      · rfl
      · exact absurd ((contains_iff_mem_str _ _).mp hcc) h2
    by_cases h1 : normalizedStrategy env = "" <;>
      by_cases h3 : pyStrip ((env.get UNSTRUCTURED_HI_RES_MODEL_ENV).getD "") = "" <;>
      by_cases h4 : resolvedStrategy env = "hi_res" <;>
      simp [h1, h2, h3, h4, hc]

/-! ## Witness data: concrete resolution outcomes used by witnesses -/

/-- Outcome of parameter resolution in the empty environment. -/
def emptyEnvResult : PartitionResult :=
  { params := [("strategy", PValue.str "fast"), ("coordinates", PValue.bool true),
      ("include_page_breaks", PValue.bool false), ("unique_element_ids", PValue.bool true),
      ("multipage_sections", PValue.bool true), ("overlap_all", PValue.bool false),
      ("pdf_infer_table_structure", PValue.bool true)],
    warnings := [] }

/-! ## Claims -/

/-- C1: for every service response with status code not equal to 200,
unstructured_to_text fails with the service error whose message contains the
status code (between the two literal fragments of the message), and no text
— not even a partial result — is returned to the caller, since the outcome
is the error and never an ok value. -/
theorem claim_c1_non200_fails (env : Env) (response : PartitionResponse)
    (r : PartitionResult) (hp : _get_partition_params env = Except.ok r)
    (hs : response.status_code ≠ 200) :
    unstructured_to_text env response =
      Except.error ("Received unexpected status code " ++ toString response.status_code
        ++ " from Unstructured API.") := by
  unfold unstructured_to_text
  rw [hp]
  simp [Bind.bind, Except.bind, dict_to_elements, hs]

/-- Witness for C1: a mocked 500 response aborts with the error message
carrying the code 500. -/
theorem claim_c1_non200_fails_witness :
    unstructured_to_text [] { status_code := 500, elements := ["Hello"] } =
      Except.error "Received unexpected status code 500 from Unstructured API." := by
  have h := claim_c1_non200_fails [] { status_code := 500, elements := ["Hello"] }
    emptyEnvResult (by decide) (by decide)
  exact h.trans (by decide)

/-- C2: for every service response with status code 200 carrying an ordered
sequence of elements, unstructured_to_text returns exactly the string forms
of those elements, in their original order, joined with the two-newline
separator. -/
theorem claim_c2_success_joins (env : Env) (response : PartitionResponse)
    (r : PartitionResult) (hp : _get_partition_params env = Except.ok r)
    (hs : response.status_code = 200) :
    unstructured_to_text env response =
      Except.ok (String.intercalate "\n\n" (dict_to_elements response.elements)) := by
  unfold unstructured_to_text
  rw [hp]
  simp [Bind.bind, Except.bind, hs]

/-- Witness for C2: elements Hello and World at status 200 yield the string
Hello, blank line, World. -/
theorem claim_c2_success_joins_witness :
    unstructured_to_text [] { status_code := 200, elements := ["Hello", "World"] } =
      Except.ok "Hello\n\nWorld" := by
  have h := claim_c2_success_joins [] { status_code := 200, elements := ["Hello", "World"] }
    emptyEnvResult (by decide) (by decide)
  exact h.trans (by decide)

/-- C4 counterexample: the claim predicts that any non-empty value that is
not case-insensitively one of 1, true, yes parses as false; the value
" true " (with surrounding spaces) is such a value — it is non-empty and
its lowercase form differs from all three literals — yet the source strips
whitespace first and parses it as true. -/
theorem claim_c4_counterexample :
    _get_bool_env [("UNSTRUCTURED_COORDINATES", " true ")] "UNSTRUCTURED_COORDINATES" false
        = true ∧
      pyLower " true " ≠ "1" ∧ pyLower " true " ≠ "true" ∧ pyLower " true " ≠ "yes" ∧
      " true " ≠ "" := by
  refine ⟨by decide, by decide, by decide, by decide, by decide⟩

/-- C4 as amended: the value is first stripped of surrounding whitespace and
lowercased; the parsed boolean is true exactly when that normal form is one
of 1, true, yes; any other set value (empty included) parses as false; when
the variable is unset the given default applies. -/
theorem claim_c4_amended (var_name v : String) (d : Bool) :
    _get_bool_env [] var_name d = d ∧
    (_get_bool_env [(var_name, v)] var_name d = true ↔
      pyLower (pyStrip v) ∈ (["1", "true", "yes"] : List String)) := by
  constructor
  · rfl
  · unfold _get_bool_env Env.get
    rw [lookup_cons_if, if_pos rfl]
    unfold pyTruthyLiteral
    constructor
    · intro h
      rcases Bool.or_eq_true_iff.mp h with h1 | h2
      · rcases Bool.or_eq_true_iff.mp h1 with ha | hb
        · simp only [beq_iff_eq] at ha
          simp [ha]
        · simp only [beq_iff_eq] at hb
          simp [hb]
      · simp only [beq_iff_eq] at h2
        simp [h2]
    · intro h
      rw [List.mem_cons, List.mem_cons, List.mem_singleton] at h
      rcases h with h | h | h <;> simp [h]

/-- C9: credential round-trip over the key-value store — storing a key then
reading yields that key, and after deletion reading yields none without any
error being raised (absence is the normal no-key case). -/
theorem claim_c9_roundtrip (kv : KVStore) (k : String) :
    get_unstructured_api_key (update_unstructured_api_key kv k) = some k ∧
    get_unstructured_api_key (delete_unstructured_api_key kv) = none := by
  constructor
  · unfold get_unstructured_api_key update_unstructured_api_key KVStore.store KVStore.load
    rw [lookup_cons_if, if_pos rfl]
  · unfold get_unstructured_api_key delete_unstructured_api_key KVStore.delete KVStore.load
    rw [lookup_filter_fst_ne]

/-- C3 counterexample: the claim predicts resolution never fails for any
assignment, including non-numeric integer options; but a non-numeric
combine-under value makes the int conversion raise, aborting resolution
with an error instead of a configuration map. -/
theorem claim_c3_counterexample :
    _get_partition_params [("UNSTRUCTURED_COMBINE_UNDER_N_CHARS", "abc")] =
      Except.error "invalid literal for int with base 10: abc" := by
  decide

/-- C3 as amended: resolution never fails provided each of the four integer
options is unset, empty, or a value the int conversion accepts; invalid
values of the strategy and of every boolean option are corrected to their
safe defaults and never fail, as the absence of any other hypothesis on the
environment shows.  A non-numeric integer option, however, aborts
resolution with an error. -/
theorem claim_c3_amended (env : Env)
    (h1 : intEnvOk env "UNSTRUCTURED_COMBINE_UNDER_N_CHARS" = true)
    (h2 : intEnvOk env "UNSTRUCTURED_MAX_CHARACTERS" = true)
    (h3 : intEnvOk env "UNSTRUCTURED_NEW_AFTER_N_CHARS" = true)
    (h4 : intEnvOk env "UNSTRUCTURED_OVERLAP" = true) :
    (_get_partition_params env).isOk = true := by
  obtain ⟨c, hc⟩ := intOpt_ok_of_intEnvOk env _ "combine_under_n_chars" h1
  obtain ⟨m, hm⟩ := intOpt_ok_of_intEnvOk env _ "max_characters" h2
  obtain ⟨n, hn⟩ := intOpt_ok_of_intEnvOk env _ "new_after_n_chars" h3
  obtain ⟨o, ho⟩ := intOpt_ok_of_intEnvOk env _ "overlap" h4
  unfold _get_partition_params
  rw [hc]
  simp [Bind.bind, Except.bind, hm, hn, ho, pure, Except.pure, Except.isOk, Except.toBool]

/-- Environment used by the C3 witness: all four integer options set to
valid integers, with an invalid strategy and an invalid boolean thrown in
to exercise the correction paths. -/
def envC3W : Env :=
  [("UNSTRUCTURED_COMBINE_UNDER_N_CHARS", "500"),
   ("UNSTRUCTURED_MAX_CHARACTERS", " 1500 "),
   ("UNSTRUCTURED_NEW_AFTER_N_CHARS", "1000"),
   ("UNSTRUCTURED_OVERLAP", "0"),
   ("UNSTRUCTURED_STRATEGY", "bogus"),
   ("UNSTRUCTURED_COORDINATES", "banana")]

/-- Witness for C3 as amended. -/
theorem claim_c3_amended_witness : (_get_partition_params envC3W).isOk = true :=
  claim_c3_amended envC3W (by decide) (by decide) (by decide) (by decide)

/-- C5 counterexample: the value with surrounding spaces is set, non-empty
and not one of the four valid strategy strings, so the claim predicts the
fallback "fast"; but the source strips and lowercases the value first and
resolves the strategy to hi_res. -/
theorem claim_c5_counterexample :
    Except.map (fun r => List.lookup "strategy" r.params)
        (_get_partition_params [("UNSTRUCTURED_STRATEGY", " hi_res ")]) =
      Except.ok (some (PValue.str "hi_res")) ∧
    ¬ (" hi_res " ∈ VALID_UNSTRUCTURED_STRATEGIES) ∧ " hi_res " ≠ "" := by
  refine ⟨by decide, by decide, by decide⟩

/-- C5 as amended: the strategy value is first stripped of whitespace and
lowercased; the resolved strategy is "fast" whenever the variable is unset
or that normal form is empty or not one of fast, hi_res, auto, ocr_only,
and otherwise it is that normal form; an invalid (non-empty) normal form
additionally produces the invalid-strategy warning, and nothing else does. -/
theorem claim_c5_amended (env : Env) (r : PartitionResult)
    (hp : _get_partition_params env = Except.ok r) :
    List.lookup "strategy" r.params =
      some (PValue.str
        (if normalizedStrategy env = "" ∨
            ¬ normalizedStrategy env ∈ VALID_UNSTRUCTURED_STRATEGIES
         then "fast" else normalizedStrategy env)) ∧
    ((LogWarning.invalidStrategy (normalizedStrategy env) ∈ r.warnings) ↔
      (normalizedStrategy env ≠ "" ∧
        ¬ normalizedStrategy env ∈ VALID_UNSTRUCTURED_STRATEGIES)) := by
  obtain ⟨c, m, n, o, hc, hm, hn, ho, hr⟩ := partition_params_ok_shape env r hp
  subst hr
  constructor
  · show List.lookup "strategy" (buildParams env c m n o) = _
    rw [buildParams_lookup_strategy]
    unfold resolvedStrategy
    by_cases ha : normalizedStrategy env = ""
    · simp [ha]
    · by_cases hb : normalizedStrategy env ∈ VALID_UNSTRUCTURED_STRATEGIES
      · have hcb := (contains_iff_mem_str _ _).mpr hb
        simp [ha, hb, hcb]
      · have hcb : VALID_UNSTRUCTURED_STRATEGIES.contains (normalizedStrategy env) = false := by
          cases hcc : VALID_UNSTRUCTURED_STRATEGIES.contains (normalizedStrategy env)
          · rfl
          · exact absurd ((contains_iff_mem_str _ _).mp hcc) hb
        simp [ha, hb, hcb]
  · show LogWarning.invalidStrategy (normalizedStrategy env) ∈
        strategyWarnings env ++ hiResWarnings env (resolvedStrategy env) ↔ _
    exact invalidStrategy_mem_warnings env

/-- Environment used by the C5 witness: an invalid strategy value. -/
def envC5W : Env := [("UNSTRUCTURED_STRATEGY", "bogus")]

/-- Resolution outcome for envC5W. -/
def rC5W : PartitionResult :=
  { params := [("strategy", PValue.str "fast"), ("coordinates", PValue.bool true),
      ("include_page_breaks", PValue.bool false), ("unique_element_ids", PValue.bool true),
      ("multipage_sections", PValue.bool true), ("overlap_all", PValue.bool false),
      ("pdf_infer_table_structure", PValue.bool true)],
    warnings := [LogWarning.invalidStrategy "bogus"] }

/-- Witness for C5 as amended: the invalid value bogus resolves to fast and
logs the warning. -/
theorem claim_c5_amended_witness :
    List.lookup "strategy" rC5W.params = some (PValue.str "fast") ∧
    LogWarning.invalidStrategy (normalizedStrategy envC5W) ∈ rC5W.warnings := by
  have h := claim_c5_amended envC5W rC5W (by decide)
  exact ⟨h.1.trans (by decide), h.2.mpr ⟨by decide, by decide⟩⟩

/-- C6 counterexample: with the coordinates variable set to no, the parsed
boolean is false and the source omits the coordinates key entirely, and
with the slide-notes variable unset that boolean key is also omitted —
contradicting the claim that every boolean option of the table is present
with a resolved value. -/
theorem claim_c6_counterexample :
    Except.map (fun r => (List.lookup "coordinates" r.params,
        List.lookup "include_slide_notes" r.params))
        (_get_partition_params [("UNSTRUCTURED_COORDINATES", "no")]) =
      Except.ok (none, none) := by
  decide

/-- C6 as amended: the resolved mapping always contains resolved boolean
values for include_page_breaks, unique_element_ids, multipage_sections,
overlap_all and pdf_infer_table_structure; coordinates is present — always
bound to true — exactly when its parsed boolean is true and is omitted when
that boolean is false; include_slide_notes is present with its parsed
boolean exactly when its variable is set. -/
theorem claim_c6_amended (env : Env) (r : PartitionResult)
    (hp : _get_partition_params env = Except.ok r) :
    List.lookup "include_page_breaks" r.params =
        some (PValue.bool (_get_bool_env env "UNSTRUCTURED_INCLUDE_PAGE_BREAKS" false)) ∧
    List.lookup "unique_element_ids" r.params =
        some (PValue.bool (_get_bool_env env "UNSTRUCTURED_UNIQUE_ELEMENT_IDS" true)) ∧
    List.lookup "multipage_sections" r.params =
        some (PValue.bool (_get_bool_env env "UNSTRUCTURED_MULTIPAGE_SECTIONS" true)) ∧
    List.lookup "overlap_all" r.params =
        some (PValue.bool (_get_bool_env env "UNSTRUCTURED_OVERLAP_ALL" false)) ∧
    List.lookup "pdf_infer_table_structure" r.params =
        some (PValue.bool (_get_bool_env env "UNSTRUCTURED_PDF_INFER_TABLE_STRUCTURE" true)) ∧
    List.lookup "coordinates" r.params =
        (if _get_bool_env env "UNSTRUCTURED_COORDINATES" true then
          some (PValue.bool true) else none) ∧
    List.lookup "include_slide_notes" r.params =
        (env.get "UNSTRUCTURED_INCLUDE_SLIDE_NOTES").map
          (fun v => PValue.bool (pyTruthyLiteral v)) := by
  obtain ⟨c, m, n, o, hc, hm, hn, ho, hr⟩ := partition_params_ok_shape env r hp
  subst hr
  exact ⟨buildParams_lookup_include_page_breaks env c m n o,
    buildParams_lookup_unique_element_ids env c m n o,
    buildParams_lookup_multipage_sections env c m n o,
    buildParams_lookup_overlap_all env c m n o hc hm hn ho,
    buildParams_lookup_pdf_infer env c m n o hc hm hn ho,
    buildParams_lookup_coordinates env c m n o hc hm hn ho,
    buildParams_lookup_include_slide_notes env c m n o hc hm hn ho⟩

/-- Witness for C6 as amended, at the empty environment. -/
theorem claim_c6_amended_witness :
    List.lookup "include_page_breaks" emptyEnvResult.params =
      some (PValue.bool false) := by
  have h := (claim_c6_amended [] emptyEnvResult (by decide)).1
  exact h.trans (by decide)

/-- C7: for every environment in which the stripped hi-res model name is
non-empty, the resolved mapping binds hi_res_model_name to that name when
the resolved strategy is hi_res, and omits the key — logging the ignored-
model warning — for any other resolved strategy. -/
theorem claim_c7_hi_res_model (env : Env) (r : PartitionResult)
    (hp : _get_partition_params env = Except.ok r)
    (hmodel : pyStrip ((env.get UNSTRUCTURED_HI_RES_MODEL_ENV).getD "") ≠ "") :
    (resolvedStrategy env = "hi_res" →
      List.lookup "hi_res_model_name" r.params =
        some (PValue.str (pyStrip ((env.get UNSTRUCTURED_HI_RES_MODEL_ENV).getD "")))) ∧
    (resolvedStrategy env ≠ "hi_res" →
      List.lookup "hi_res_model_name" r.params = none ∧
      LogWarning.hiResModelIgnored (resolvedStrategy env) ∈ r.warnings) := by
  obtain ⟨c, m, n, o, hc, hm, hn, ho, hr⟩ := partition_params_ok_shape env r hp
  subst hr
  constructor
  · intro hs
    show List.lookup "hi_res_model_name" (buildParams env c m n o) = _
    rw [buildParams_lookup_hi_res env c m n o hc hm hn ho, if_neg hmodel, if_pos hs]
  · intro hs
    refine ⟨?_, ?_⟩
    · show List.lookup "hi_res_model_name" (buildParams env c m n o) = none
      rw [buildParams_lookup_hi_res env c m n o hc hm hn ho, if_neg hmodel, if_neg hs]
    · show LogWarning.hiResModelIgnored (resolvedStrategy env) ∈
        strategyWarnings env ++ hiResWarnings env (resolvedStrategy env)
      rw [List.mem_append]
      right
      unfold hiResWarnings
      simp [hmodel, hs]

/-- Environment used by the C7 witness: hi_res strategy with a model name. -/
def envC7W : Env :=
  [("UNSTRUCTURED_STRATEGY", "hi_res"), ("UNSTRUCTURED_HI_RES_MODEL_NAME", "modelX")]

/-- Resolution outcome for envC7W. -/
def rC7W : PartitionResult :=
  { params := [("strategy", PValue.str "hi_res"), ("coordinates", PValue.bool true),
      ("include_page_breaks", PValue.bool false), ("unique_element_ids", PValue.bool true),
      ("multipage_sections", PValue.bool true), ("overlap_all", PValue.bool false),
      ("pdf_infer_table_structure", PValue.bool true),
      ("hi_res_model_name", PValue.str "modelX")],
    warnings := [] }

/-- Witness for C7: strategy hi_res with model name modelX binds the key. -/
theorem claim_c7_hi_res_model_witness :
    List.lookup "hi_res_model_name" rC7W.params = some (PValue.str "modelX") := by
  have h := (claim_c7_hi_res_model envC7W rC7W (by decide) (by decide)).1 (by decide)
  exact h.trans (by decide)

/-- C8: for every non-empty languages value, the resolved mapping binds
languages to the comma-split, whitespace-trimmed list with empty entries
dropped. -/
theorem claim_c8_languages (env : Env) (r : PartitionResult) (v : String)
    (hp : _get_partition_params env = Except.ok r)
    (hv : env.get "UNSTRUCTURED_LANGUAGES" = some v) (hne : v ≠ "") :
    List.lookup "languages" r.params = some (PValue.list (splitTrimDrop v)) := by
  obtain ⟨c, m, n, o, hc, hm, hn, ho, hr⟩ := partition_params_ok_shape env r hp
  subst hr
  show List.lookup "languages" (buildParams env c m n o) = _
  rw [buildParams_lookup_languages env c m n o hc hm hn ho]
  simp only [hv]
  rw [if_neg hne]

/-- Environment used by the C8 witness. -/
def envC8W : Env := [("UNSTRUCTURED_LANGUAGES", "en, fr ,")]

/-- Resolution outcome for envC8W. -/
def rC8W : PartitionResult :=
  { params := [("strategy", PValue.str "fast"), ("coordinates", PValue.bool true),
      ("include_page_breaks", PValue.bool false), ("unique_element_ids", PValue.bool true),
      ("languages", PValue.list ["en", "fr"]),
      ("multipage_sections", PValue.bool true), ("overlap_all", PValue.bool false),
      ("pdf_infer_table_structure", PValue.bool true)],
    warnings := [] }

/-- Witness for C8: the value with stray spaces and a trailing comma
resolves to the two-entry list. -/
theorem claim_c8_languages_witness :
    List.lookup "languages" rC8W.params = some (PValue.list ["en", "fr"]) := by
  have h := claim_c8_languages envC8W rC8W "en, fr ," (by decide) (by decide) (by decide)
  exact h.trans (by decide)

/-- C10 counterexample: a languages value consisting of a single comma is a
non-empty raw string, so the source binds the languages key — to the empty
list — contradicting the claim that such values leave the key omitted and
that a present list key is never empty. -/
theorem claim_c10_counterexample :
    Except.map (fun r => List.lookup "languages" r.params)
        (_get_partition_params [("UNSTRUCTURED_LANGUAGES", ",")]) =
      Except.ok (some (PValue.list [])) := by
  decide

/-- C10 as amended: whenever skip_infer_table_types or
extract_image_block_types is present its value is a non-empty list of
non-empty, whitespace-trimmed entries, and a value of only commas and
whitespace leaves those keys omitted; languages entries are likewise
non-empty and trimmed, but the key itself is bound through the raw-string
truthiness test, so a comma-and-whitespace value binds languages to the
empty list instead of omitting it. -/
theorem claim_c10_amended (env : Env) (r : PartitionResult)
    (hp : _get_partition_params env = Except.ok r) :
    (∀ l, List.lookup "skip_infer_table_types" r.params = some (PValue.list l) →
        l ≠ [] ∧ ∀ s ∈ l, s ≠ "" ∧ pyStrip s = s) ∧
    (∀ l, List.lookup "extract_image_block_types" r.params = some (PValue.list l) →
        l ≠ [] ∧ ∀ s ∈ l, s ≠ "" ∧ pyStrip s = s) ∧
    (∀ l, List.lookup "languages" r.params = some (PValue.list l) →
        ∀ s ∈ l, s ≠ "" ∧ pyStrip s = s) := by
  obtain ⟨c, m, n, o, hc, hm, hn, ho, hr⟩ := partition_params_ok_shape env r hp
  subst hr
  refine ⟨?_, ?_, ?_⟩
  · intro l hl
    replace hl : List.lookup "skip_infer_table_types" (buildParams env c m n o) =
        some (PValue.list l) := hl
    rw [buildParams_lookup_skip_types env c m n o hc hm hn ho] at hl
    cases hg : _get_list_env env "UNSTRUCTURED_SKIP_INFER_TABLE_TYPES" with
    | none => simp only [hg] at hl; cases hl
    | some l0 =>
        simp only [hg] at hl
        by_cases hl0 : l0.isEmpty = true
        · rw [if_pos hl0] at hl; cases hl
        · rw [if_neg hl0] at hl
          have hll : l0 = l := by simpa using hl
          obtain ⟨raw, _, _, hsp⟩ := _get_list_env_some env _ l0 hg
          refine ⟨?_, ?_⟩
          · intro he
            apply hl0
            rw [hll, he]
            rfl
          · intro s hs
            rw [← hll, hsp] at hs
            exact mem_splitTrimDrop raw s hs
  · intro l hl
    replace hl : List.lookup "extract_image_block_types" (buildParams env c m n o) =
        some (PValue.list l) := hl
    rw [buildParams_lookup_extract_types env c m n o hc hm hn ho] at hl
    cases hg : _get_list_env env "UNSTRUCTURED_EXTRACT_IMAGE_BLOCK_TYPES" with
    | none => simp only [hg] at hl; cases hl
    | some l0 =>
        simp only [hg] at hl
        by_cases hl0 : l0.isEmpty = true
        · rw [if_pos hl0] at hl; cases hl
        · rw [if_neg hl0] at hl
          have hll : l0 = l := by simpa using hl
          obtain ⟨raw, _, _, hsp⟩ := _get_list_env_some env _ l0 hg
          refine ⟨?_, ?_⟩
          · intro he
            apply hl0
            rw [hll, he]
            rfl
          · intro s hs
            rw [← hll, hsp] at hs
            exact mem_splitTrimDrop raw s hs
  · intro l hl
    replace hl : List.lookup "languages" (buildParams env c m n o) =
        some (PValue.list l) := hl
    rw [buildParams_lookup_languages env c m n o hc hm hn ho] at hl
    cases hg : env.get "UNSTRUCTURED_LANGUAGES" with
    | none => simp only [hg] at hl; cases hl
    | some raw =>
        simp only [hg] at hl
        by_cases hr0 : raw = ""
        · rw [if_pos hr0] at hl; cases hl
        · rw [if_neg hr0] at hl
          have hll : splitTrimDrop raw = l := by simpa using hl
          intro s hs
          rw [← hll] at hs
          exact mem_splitTrimDrop raw s hs

/-- Environment used by the C10 witness. -/
def envC10W : Env := [("UNSTRUCTURED_SKIP_INFER_TABLE_TYPES", "pdf, docx")]

/-- Resolution outcome for envC10W. -/
def rC10W : PartitionResult :=
  { params := [("strategy", PValue.str "fast"), ("coordinates", PValue.bool true),
      ("include_page_breaks", PValue.bool false), ("unique_element_ids", PValue.bool true),
      ("multipage_sections", PValue.bool true), ("overlap_all", PValue.bool false),
      ("pdf_infer_table_structure", PValue.bool true),
      ("skip_infer_table_types", PValue.list ["pdf", "docx"])],
    warnings := [] }

/-- Witness for C10 as amended, at a two-entry table-types value. -/
theorem claim_c10_amended_witness :
    (["pdf", "docx"] : List String) ≠ [] ∧
      ∀ s ∈ (["pdf", "docx"] : List String), s ≠ "" ∧ pyStrip s = s :=
  (claim_c10_amended envC10W rC10W (by decide)).1 ["pdf", "docx"] (by decide)
